import Mathlib

/-!
Shallow embedding of the percepta chat frontend: the Next.js API proxy
routes (agents listing, agent-response, create-room, handoff), the
WebSocket chat page handlers, and the two LiveKit chat client variants.
Each definition is translated from one function of the source; the backend
Conversation Orchestrator is not part of the sources and is modelled from
the spec where a claim needs it.
-/

/-- Whitespace predicate of the JavaScript String trim method: ASCII
whitespace plus no-break space, BOM and the Unicode line and paragraph
separators. -/
def isJsWhitespace (c : Char) : Bool :=
  c == ' ' || c == '\t' || c == '\n' || c == '\r' || c == '\x0b' ||
  c == '\x0c' || c == '\u00A0' || c == '\uFEFF' || c == '\u2028' ||
  c == '\u2029'

/-- List-level model of the JavaScript String trim method: drop leading and
trailing whitespace characters. -/
def jsTrimList (l : List Char) : List Char :=
  ((l.dropWhile isJsWhitespace).reverse.dropWhile isJsWhitespace).reverse

/-- Model of the JavaScript String trim method. -/
def jsTrim (s : String) : String :=
  ⟨jsTrimList s.data⟩

/-- Replace the first occurrence of a nonempty pattern in a character
list. -/
def jsReplaceFirstAux (pat rep : List Char) : List Char → List Char
  | [] => []
  | c :: rest =>
    if (c :: rest).take pat.length = pat then rep ++ (c :: rest).drop pat.length
    else c :: jsReplaceFirstAux pat rep rest

/-- Model of the JavaScript String replace method with a string pattern:
replace the first occurrence of the pattern only. -/
def jsReplaceFirst (s pat rep : String) : String :=
  if pat = "" then ⟨rep.data ++ s.data⟩
  else ⟨jsReplaceFirstAux pat.data rep.data s.data⟩

/-- Model of the JavaScript logical-or default for a possibly absent or
empty string (`a || b`). -/
def jsOrString (a : Option String) (b : String) : String :=
  match a with
  | none => b
  | some s => if s = "" then b else s

/-- Outcome of a fetch to the backend as seen by a route handler: the fetch
threw (network failure), the response was not ok (non-2xx status), or the
response was ok and its JSON body parsed to the given data. -/
inductive FetchOutcome (α : Type) where
  | failure : FetchOutcome α
  | nonOk (status : Nat) : FetchOutcome α
  | ok (data : α) : FetchOutcome α
deriving DecidableEq

/-- A JSON response produced with NextResponse.json: an HTTP status and a
body. -/
structure JsonResponse (α : Type) where
  status : Nat
  body : α
deriving DecidableEq

/-- An agent record as listed by the agents routes. -/
structure Agent where
  name : String
  role : String
  description : String
deriving DecidableEq

/-- Body shape of the agents listing response. -/
structure AgentsBody where
  agents : List Agent
deriving DecidableEq

/-- The fixed built-in 3-agent fallback list of the percepta agents route
(src/unnamed/part_000). -/
def fallbackAgents3 : List Agent :=
  [⟨"support-agent", "Customer Support", "Helps with technical issues"⟩,
   ⟨"sales-agent", "Sales Representative", "Provides product information"⟩,
   ⟨"advisor-agent", "Financial Advisor", "Offers financial guidance"⟩]

/-- The fixed built-in 5-agent fallback list of the attack-capital agents
route (src/attack-capital/frontend/app/src/app/api/agents/route.ts). -/
def fallbackAgents5 : List Agent :=
  [⟨"general-assistant", "General Assistant",
      "A helpful, concise assistant providing clear answers"⟩,
   ⟨"technical-assistant", "Developer Assistant",
      "Expert developer assistant providing code examples and technical advice"⟩,
   ⟨"creative-writer", "Creative Writer",
      "Creative writing assistant producing vivid, original text"⟩,
   ⟨"fact-checker", "Fact Checker",
      "Careful fact-checker verifying claims with sources"⟩,
   ⟨"tutor", "Tutor", "Patient tutor explaining concepts with examples"⟩]

/-- GET handler of the percepta agents route (src/unnamed/part_000): pass
the upstream body through on an ok fetch, otherwise answer 200 with the
fixed 3-agent fallback list. -/
def agentsGET3 (o : FetchOutcome AgentsBody) : JsonResponse AgentsBody :=
  match o with
  | .ok d => ⟨200, d⟩
  | _ => ⟨200, ⟨fallbackAgents3⟩⟩

/-- GET handler of the attack-capital agents route: pass the upstream body
through on an ok fetch, otherwise answer 200 with the fixed 5-agent
fallback list. -/
def agentsGET5 (o : FetchOutcome AgentsBody) : JsonResponse AgentsBody :=
  match o with
  | .ok d => ⟨200, d⟩
  | _ => ⟨200, ⟨fallbackAgents5⟩⟩

/-- Body shape of the agent-response endpoint. -/
structure AgentResponseBody where
  response : String
  agent : String
deriving DecidableEq

/-- The fixed apology string of the agent-response proxy route. -/
def agentResponseApology : String :=
  "I\x27m sorry, I encountered an error processing your request. Please try again later."

/-- POST handler of the agent-response proxy route (src/unnamed/part_007):
pass the upstream body through on an ok fetch, otherwise answer 500 with
the fixed apology payload tagged agent system. -/
def agentResponsePOST (o : FetchOutcome AgentResponseBody) :
    JsonResponse AgentResponseBody :=
  match o with
  | .ok d => ⟨200, d⟩
  | _ => ⟨500, ⟨agentResponseApology, "system"⟩⟩

/-- Body shape of a successful create-room response. -/
structure CreateRoomBody where
  token : String
  room_name : String
deriving DecidableEq

/-- Body shape of the create-room failure response: the keys error and
details of the object literal in the catch branch. -/
structure CreateRoomErrorBody where
  error : String
  details : String
deriving DecidableEq

/-- Response of the create-room route: passthrough or the failure body. -/
inductive CreateRoomResponse where
  | ok (status : Nat) (body : CreateRoomBody)
  | err (status : Nat) (body : CreateRoomErrorBody)
deriving DecidableEq

/-- POST handler of the create-room proxy route: pass the upstream body
through on an ok fetch, otherwise answer 500 with a fixed message and the
error message string as details. -/
def createRoomPOST (o : FetchOutcome CreateRoomBody) (errMsg : String) :
    CreateRoomResponse :=
  match o with
  | .ok d => .ok 200 d
  | _ => .err 500 ⟨"Failed to create room. Please try again.", errMsg⟩

/-- Body shape of a successful handoff response. -/
structure HandoffBody where
  success : Bool
  message : String
  to_agent : String
deriving DecidableEq

/-- Body shape of the handoff failure response: the keys success, message
and error of the object literal in the catch branch. -/
structure HandoffErrorBody where
  success : Bool
  message : String
  error : String
deriving DecidableEq

/-- Response of the handoff route: passthrough or the failure body. -/
inductive HandoffResponse where
  | ok (status : Nat) (body : HandoffBody)
  | err (status : Nat) (body : HandoffErrorBody)
deriving DecidableEq

/-- The fixed message of the handoff failure response. -/
def handoffTrouble : String :=
  "I\x27m having trouble switching agents right now. Please try again later."

/-- POST handler of the handoff proxy route
(src/frontend/app/src/app/api/handoff/route.ts): pass the upstream body
through on an ok fetch, otherwise answer 500 with success false, the fixed
message and the error message string. -/
def handoffPOST (o : FetchOutcome HandoffBody) (errMsg : String) :
    HandoffResponse :=
  match o with
  | .ok d => .ok 200 d
  | _ => .err 500 ⟨false, handoffTrouble, errMsg⟩

/-- A message of the WebSocket chat page message list
(src/unnamed/part_001). The timestamp models the Date value; the id models
the Date.now().toString() value. -/
structure Message where
  id : String
  content : String
  sender : String
  timestamp : Nat
  username : Option String
  isSystem : Bool
  isUser : Bool
deriving DecidableEq

/-- A parsed inbound WebSocket frame as read by ws.onmessage. The isUser
field may be absent, modelling the JavaScript double-negation coercion. -/
structure InboundFrame where
  type : String
  content : String
  sender : String
  username : Option String
  isUser : Option Bool
deriving DecidableEq

/-- An outbound WebSocket frame as built by sendMessage: exactly the keys
message and agent of the stringified object literal. -/
structure OutboundFrame where
  message : String
  agent : String
deriving DecidableEq

/-- The ws.onmessage handler of the chat page (src/unnamed/part_001): on a
frame of type message or system, append the mapped message to the list;
otherwise leave the list unchanged. -/
def wsOnMessage (now : Nat) (frame : InboundFrame) (prev : List Message) :
    List Message :=
  if frame.type == "message" || frame.type == "system" then
    prev ++ [⟨toString now, frame.content, frame.sender, now, frame.username,
             frame.type == "system", frame.isUser.getD false⟩]
  else prev

/-- Outcome of the REST fallback call of sendMessage: the fetch succeeded
with an ok response carrying response and agent, or it threw or was not
ok. -/
inductive RestOutcome where
  | ok (response : String) (agent : Option String)
  | failure
deriving DecidableEq

/-- Observable result of one sendMessage call: the WebSocket frames sent,
the number of fetch calls made, and the message list afterwards. -/
structure SendResult where
  sentFrames : List OutboundFrame
  fetchCalls : Nat
  messages : List Message
deriving DecidableEq

/-- The fixed apology string of the REST error branch of sendMessage. -/
def restApology : String :=
  "Sorry, I couldn\x27t process your message. Please try again."

/-- The sendMessage handler of the chat page (src/unnamed/part_001): on
blank input return immediately; over an open WebSocket send one frame and
do not touch the message list; otherwise call the REST endpoint and append
either the reply (sender agent, defaulting to the current agent) or the
fixed apology tagged system. -/
def sendMessage (now : Nat) (username currentAgent : String) (wsOpen : Bool)
    (rest : RestOutcome) (content : String) (prev : List Message) :
    SendResult :=
  if jsTrim content = "" then ⟨[], 0, prev⟩
  else if wsOpen then ⟨[⟨content, currentAgent⟩], 0, prev⟩
  else
    match rest with
    | .ok resp agent =>
        ⟨[], 1, prev ++ [⟨toString now, resp, jsOrString agent currentAgent,
          now, none, false, false⟩]⟩
    | .failure =>
        ⟨[], 1, prev ++ [⟨toString now, restApology, "system", now, none,
          false, false⟩]⟩

/-- Outcome of the handoff call made by handleAgentChange: ok with the
response fields message and to_agent, or a thrown or non-ok response. -/
inductive HandoffOutcome where
  | ok (message toAgent : String)
  | failure
deriving DecidableEq

/-- Client state touched by handleAgentChange: the current agent and the
message list. -/
structure AgentChangeResult where
  currentAgent : String
  messages : List Message
deriving DecidableEq

/-- The system notice appended at the start of handleAgentChange. -/
def switchNotice (now : Nat) (agentName : String) : Message :=
  ⟨toString now,
   "Switching to " ++ jsReplaceFirst agentName "-agent" "" ++ " agent...",
   "system", now, none, false, false⟩

/-- The handleAgentChange handler of the chat page (src/unnamed/part_001):
set the current agent to the target immediately, append the switch notice,
then call the handoff route; on ok append the handoff message, on failure
only log (no state change beyond what already happened). The prevAgent
argument is the current-agent state being replaced; the source never reads
it back. -/
def handleAgentChange (now : Nat) (prevAgent agentName : String)
    (o : HandoffOutcome) (prev : List Message) : AgentChangeResult :=
  let afterNotice := prev ++ [switchNotice now agentName]
  match o with
  | .ok msg toAgent =>
      ⟨agentName, afterNotice ++
        [⟨toString now, msg, toAgent, now, none, false, false⟩]⟩
  | .failure => ⟨agentName, afterNotice⟩

/-- A message of the LiveKit chat client message list
(src/frontend/src/components/Chat.tsx and src/unnamed/part_002). -/
structure LkMessage where
  id : String
  text : String
  sender : String
  timestamp : Nat
  isAgent : Bool
deriving DecidableEq

/-- A message received from the LiveKit data channel. -/
structure LkReceivedMessage where
  type : String
  text : String
  timestamp : Nat
deriving DecidableEq

/-- Observable result of one LiveKit handleSendMessage call: the message
list afterwards and the texts sent to the room. -/
structure LkSendResult where
  messages : List LkMessage
  sentTexts : List String
deriving DecidableEq

/-- The handleMessageReceived handler of the LiveKit chat clients: ignore
frames whose type is not chat, otherwise append the mapped message. -/
def lkHandleMessageReceived (agentIdentity participantIdentity : String)
    (m : LkReceivedMessage) (prev : List LkMessage) : List LkMessage :=
  if m.type != "chat" then prev
  else
    let isAgent := participantIdentity == agentIdentity
    let sender := if isAgent then agentIdentity else participantIdentity
    prev ++ [⟨toString m.timestamp ++ "-" ++ sender, m.text, sender,
             m.timestamp, isAgent⟩]

/-- The handleSendMessage handler of the LiveKit chat clients: on blank
input, missing room or no connection return immediately; otherwise append
the own message to the local list at once and then send the text to the
room. -/
def lkHandleSendMessage (now : Nat) (username : String)
    (connected haveRoom : Bool) (inputText : String)
    (prev : List LkMessage) : LkSendResult :=
  if jsTrim inputText = "" || !haveRoom || !connected then ⟨prev, []⟩
  else
    ⟨prev ++ [⟨toString now ++ "-" ++ username, inputText, username, now,
      false⟩], [inputText]⟩

/-- One stored turn of conversation memory. -/
structure MemoryEntry where
  user_id : String
  role : String
  text : String
deriving DecidableEq

/-- Outcome of the LLM adapter call. -/
inductive LlmOutcome where
  | ok (reply : String)
  | failure
deriving DecidableEq

/-- Result of one orchestrator call: the reply, the answering agent name
and the memory store afterwards. -/
structure OrchestratorResult where
  replyText : String
  agentName : String
  memory : List MemoryEntry
deriving DecidableEq

/-- Modelled from the spec: the static apology reply of the backend
orchestrator on LLM failure. The backend is not among the sources; the
text mirrors the fixed apology of the agent-response proxy route. -/
def orchestratorApology : String := agentResponseApology

/-- Modelled from the spec: the backend Conversation Orchestrator (spec
section 4.4) is not among the sources. On LLM success it appends the user
message and the reply to memory and returns the reply with the agent name;
on LLM failure it returns the static apology tagged with sender system and
appends nothing to memory. -/
def orchestrate (userId : String) (agent : Agent) (message : String)
    (llm : LlmOutcome) (memory : List MemoryEntry) : OrchestratorResult :=
  match llm with
  | .ok reply =>
      ⟨reply, agent.name, memory ++
        [⟨userId, "user", message⟩, ⟨userId, "assistant", reply⟩]⟩
  | .failure => ⟨orchestratorApology, "system", memory⟩

/-- JSON keys of the catch-branch body of the handoff route. -/
def handoffFailureFields : List String := ["success", "message", "error"]

/-- JSON keys of the catch-branch body of the agent-response route. -/
def agentResponseFailureFields : List String := ["response", "agent"]

/-- JSON keys of the catch-branch body of the create-room route. -/
def createRoomFailureFields : List String := ["error", "details"]

/-- JSON keys of the catch-branch body of the agents routes. -/
def agentsFailureFields : List String := ["agents"]

/-- Response shape asserted by the spec for any handler failure: a
200-class status, or a body carrying both an error and a details field. -/
abbrev claim7Ok (status : Nat) (fields : List String) : Prop :=
  (200 ≤ status ∧ status < 300) ∨ ("error" ∈ fields ∧ "details" ∈ fields)


theorem jsTrimList_eq_nil_iff (l : List Char) :
    jsTrimList l = [] ↔ ∀ c ∈ l, isJsWhitespace c := by
  unfold jsTrimList
  rw [List.reverse_eq_nil_iff, List.dropWhile_eq_nil_iff]
  constructor
  · intro h
    have hnil : l.dropWhile isJsWhitespace = [] := by
      cases hd : l.dropWhile isJsWhitespace with
      | nil => rfl
      | cons a t =>
        exfalso
        have hlen : 0 < (l.dropWhile isJsWhitespace).length := by
          rw [hd]; simp
        have hnot := List.dropWhile_get_zero_not (p := isJsWhitespace) l hlen
        have hmem : (l.dropWhile isJsWhitespace).get ⟨0, hlen⟩ ∈
            (l.dropWhile isJsWhitespace).reverse := by
          rw [List.mem_reverse]
          exact List.get_mem _ _ _
        exact hnot (h _ hmem)
    exact List.dropWhile_eq_nil_iff.mp hnil
  · intro h c hc
    rw [List.mem_reverse, List.dropWhile_eq_nil_iff.mpr h] at hc
    exact absurd hc (List.not_mem_nil c)

theorem jsTrim_eq_empty_iff (s : String) :
    jsTrim s = "" ↔ ∀ c ∈ s.data, isJsWhitespace c := by
  unfold jsTrim
  rw [String.ext_iff]
  exact jsTrimList_eq_nil_iff s.data

/-- C1: the agents-listing handlers return the fetched live list with
status 200 when the upstream registry fetch is ok, and exactly the fixed
built-in fallback list (the 3-agent support, sales, advisor list in the
percepta variant, the 5-agent list in the attack-capital variant) with
status 200 when the fetch fails or the response is not ok, so the request
itself never fails. -/
theorem agents_listing_registry_fallback :
    (∀ d : AgentsBody, agentsGET3 (FetchOutcome.ok d) = ⟨200, d⟩ ∧
      agentsGET5 (FetchOutcome.ok d) = ⟨200, d⟩) ∧
    (agentsGET3 FetchOutcome.failure = ⟨200, ⟨fallbackAgents3⟩⟩ ∧
      agentsGET5 FetchOutcome.failure = ⟨200, ⟨fallbackAgents5⟩⟩) ∧
    (∀ s : Nat, agentsGET3 (FetchOutcome.nonOk s) = ⟨200, ⟨fallbackAgents3⟩⟩ ∧
      agentsGET5 (FetchOutcome.nonOk s) = ⟨200, ⟨fallbackAgents5⟩⟩) :=
  ⟨fun _ => ⟨rfl, rfl⟩, ⟨rfl, rfl⟩, fun _ => ⟨rfl, rfl⟩⟩

/-- C2: the agent-response proxy handler returns the upstream body on an ok
upstream call, and otherwise an error payload carrying the fixed apology
string with the non-2xx status 500. -/
theorem agent_response_proxy_contract :
    (∀ d : AgentResponseBody, agentResponsePOST (FetchOutcome.ok d) = ⟨200, d⟩) ∧
    (agentResponsePOST FetchOutcome.failure =
      ⟨500, ⟨agentResponseApology, "system"⟩⟩) ∧
    (∀ s : Nat, agentResponsePOST (FetchOutcome.nonOk s) =
      ⟨500, ⟨agentResponseApology, "system"⟩⟩) ∧
    ¬(200 ≤ (agentResponsePOST FetchOutcome.failure).status ∧
      (agentResponsePOST FetchOutcome.failure).status < 300) :=
  ⟨fun _ => rfl, rfl, fun _ => rfl, by decide⟩

/-- C3: when the LLM call fails, the orchestrator reply is the fixed
apology tagged with sender system and memory is unchanged, and the chat
page REST error branch appends the fixed apology message tagged sender
system. -/
theorem llm_failure_apology_no_memory (now : Nat)
    (u agentName content userId message : String) (agent : Agent)
    (prev : List Message) (mem : List MemoryEntry)
    (h : jsTrim content ≠ "") :
    orchestrate userId agent message LlmOutcome.failure mem =
      ⟨orchestratorApology, "system", mem⟩ ∧
    (sendMessage now u agentName false RestOutcome.failure content prev).messages
      = prev ++ [⟨toString now, restApology, "system", now, none, false, false⟩] := by
  refine ⟨rfl, ?_⟩
  unfold sendMessage
  rw [if_neg h]
  rfl

/-- Witness for C3 at a concrete nonblank message. -/
theorem llm_failure_apology_no_memory_witness :
    jsTrim "hi" ≠ "" ∧
    (sendMessage 7 "alice" "support-agent" false RestOutcome.failure "hi" []).messages
      = [⟨toString 7, restApology, "system", 7, none, false, false⟩] :=
  ⟨by decide,
    (llm_failure_apology_no_memory 7 "alice" "support-agent" "hi" "alice" "hi"
      ⟨"support-agent", "", ""⟩ [] [] (by decide)).2⟩

/-- C4 counterexample: after a failed handoff call the chat page leaves the
current agent at the new target instead of reverting to the previous
agent. -/
theorem agent_switch_failure_counterexample :
    (handleAgentChange 0 "support-agent" "sales-agent" HandoffOutcome.failure
      []).currentAgent = "sales-agent" ∧
    ("sales-agent" : String) ≠ "support-agent" :=
  ⟨rfl, by decide⟩

/-- C4 amended: the chat page sets the active agent to the target before
the handoff call and keeps it there whether the call succeeds or fails; on
success it appends the handoff message, on failure it appends nothing
beyond the switch notice; the handoff proxy route reports a failure to its
caller with success false and status 500. -/
theorem agent_switch_amended (now : Nat) (prevAgent agentName : String)
    (prev : List Message) :
    (∀ msg toAgent : String,
      handleAgentChange now prevAgent agentName (HandoffOutcome.ok msg toAgent) prev
        = ⟨agentName, prev ++ [switchNotice now agentName,
            ⟨toString now, msg, toAgent, now, none, false, false⟩]⟩) ∧
    (handleAgentChange now prevAgent agentName HandoffOutcome.failure prev
        = ⟨agentName, prev ++ [switchNotice now agentName]⟩) ∧
    (∀ e : String, handoffPOST FetchOutcome.failure e =
        HandoffResponse.err 500 ⟨false, handoffTrouble, e⟩) ∧
    (∀ (s : Nat) (e : String), handoffPOST (FetchOutcome.nonOk s) e =
        HandoffResponse.err 500 ⟨false, handoffTrouble, e⟩) := by
  refine ⟨fun msg toAgent => ?_, rfl, fun e => rfl, fun s e => rfl⟩
  unfold handleAgentChange
  simp

/-- C5 counterexample: the LiveKit chat client appends the sent message to
its local message list at send time, before any broadcast comes back. -/
theorem no_local_echo_counterexample :
    (lkHandleSendMessage 3 "alice" true true "hi" []).messages =
      [⟨toString 3 ++ "-" ++ "alice", "hi", "alice", 3, false⟩] ∧
    ([⟨toString 3 ++ "-" ++ "alice", "hi", "alice", 3, false⟩] : List LkMessage)
      ≠ [] :=
  ⟨rfl, by simp⟩

/-- C5 amended: the WebSocket chat page never appends a sent message
locally while the socket is open (it renders only what ws.onmessage
appends from broadcasts), but the LiveKit chat clients append the own
message locally at send time before sending it to the room. -/
theorem no_local_echo_amended (now : Nat) (u agentName content : String)
    (rest : RestOutcome) (prev : List Message) (lkNow : Nat)
    (lkUser text : String) (lkPrev : List LkMessage)
    (h : jsTrim text ≠ "") :
    (sendMessage now u agentName true rest content prev).messages = prev ∧
    lkHandleSendMessage lkNow lkUser true true text lkPrev =
      ⟨lkPrev ++ [⟨toString lkNow ++ "-" ++ lkUser, text, lkUser, lkNow, false⟩],
       [text]⟩ := by
  constructor
  · unfold sendMessage
    split
    · rfl
    · rfl
  · unfold lkHandleSendMessage
    simp [h]

/-- Witness for the amended C5 at concrete inputs. -/
theorem no_local_echo_amended_witness :
    jsTrim "hey" ≠ "" ∧
    (sendMessage 1 "bob" "support-agent" true RestOutcome.failure "hey" []).messages
      = [] ∧
    lkHandleSendMessage 2 "bob" true true "hey" [] =
      ⟨[⟨toString 2 ++ "-" ++ "bob", "hey", "bob", 2, false⟩], ["hey"]⟩ := by
  have h : jsTrim "hey" ≠ "" := by decide
  have hm := no_local_echo_amended 1 "bob" "support-agent" "hey"
    RestOutcome.failure [] 2 "bob" "hey" [] h
  exact ⟨h, hm.1, hm.2⟩

/-- C6: over the WebSocket channel every outbound frame carries exactly the
message and agent fields of the typed input, and every inbound frame of
type message or system is mapped into a displayed message with isUser
coerced to a boolean and isSystem true exactly when the type is system. -/
theorem ws_frame_contract (now : Nat) (u agentName content : String)
    (rest : RestOutcome) (prev : List Message) (frame : InboundFrame) :
    ((sendMessage now u agentName true rest content prev).sentFrames = [] ∨
     (sendMessage now u agentName true rest content prev).sentFrames =
       [⟨content, agentName⟩]) ∧
    (frame.type = "message" →
      wsOnMessage now frame prev = prev ++ [⟨toString now, frame.content,
        frame.sender, now, frame.username, false, frame.isUser.getD false⟩]) ∧
    (frame.type = "system" →
      wsOnMessage now frame prev = prev ++ [⟨toString now, frame.content,
        frame.sender, now, frame.username, true, frame.isUser.getD false⟩]) := by
  refine ⟨?_, ?_, ?_⟩
  · unfold sendMessage
    split
    · exact Or.inl rfl
    · exact Or.inr rfl
  · intro h
    unfold wsOnMessage
    simp [h]
  · intro h
    unfold wsOnMessage
    simp [h]

/-- Witness for C6 at a concrete message frame and a concrete system
frame. -/
theorem ws_frame_contract_witness :
    wsOnMessage 5 ⟨"message", "hello", "alice", some "alice", some true⟩ [] =
      [⟨toString 5, "hello", "alice", 5, some "alice", false, true⟩] ∧
    wsOnMessage 5 ⟨"system", "joined", "system", none, none⟩ [] =
      [⟨toString 5, "joined", "system", 5, none, true, false⟩] := by
  constructor
  · exact (ws_frame_contract 5 "u" "a" "c" RestOutcome.failure []
      ⟨"message", "hello", "alice", some "alice", some true⟩).2.1 rfl
  · exact (ws_frame_contract 5 "u" "a" "c" RestOutcome.failure []
      ⟨"system", "joined", "system", none, none⟩).2.2 rfl

/-- C7 counterexample: on failure the handoff route answers 500 with a body
whose keys are success, message and error (no details field), and the
agent-response route answers 500 with a body whose keys are response and
agent, so neither failure response is 200-class nor carries both error and
details fields. -/
theorem error_payload_shape_counterexample :
    handoffPOST FetchOutcome.failure "boom" =
      HandoffResponse.err 500 ⟨false, handoffTrouble, "boom"⟩ ∧
    ¬ claim7Ok 500 handoffFailureFields ∧
    agentResponsePOST FetchOutcome.failure =
      ⟨500, ⟨agentResponseApology, "system"⟩⟩ ∧
    ¬ claim7Ok 500 agentResponseFailureFields :=
  ⟨rfl, by decide, rfl, by decide⟩

/-- C7 amended: each handler recovers from a failure with a fixed
structured body and never a raw stack trace: the agents routes answer 200
with the built-in fallback list, the agent-response route answers 500 with
the fixed apology payload, the handoff route answers 500 with success
false, a fixed message and the error message string, and the create-room
route answers 500 with an error and details body whose details field is
the error message string. -/
theorem error_payload_shape_amended (e : String) (s : Nat) :
    agentsGET3 FetchOutcome.failure = ⟨200, ⟨fallbackAgents3⟩⟩ ∧
    agentsGET5 FetchOutcome.failure = ⟨200, ⟨fallbackAgents5⟩⟩ ∧
    agentResponsePOST FetchOutcome.failure =
      ⟨500, ⟨agentResponseApology, "system"⟩⟩ ∧
    handoffPOST FetchOutcome.failure e =
      HandoffResponse.err 500 ⟨false, handoffTrouble, e⟩ ∧
    handoffPOST (FetchOutcome.nonOk s) e =
      HandoffResponse.err 500 ⟨false, handoffTrouble, e⟩ ∧
    createRoomPOST FetchOutcome.failure e = CreateRoomResponse.err 500
      ⟨"Failed to create room. Please try again.", e⟩ ∧
    claim7Ok 200 agentsFailureFields ∧
    claim7Ok 500 createRoomFailureFields :=
  ⟨rfl, rfl, rfl, rfl, rfl, rfl, by decide, by decide⟩

/-- C8: every event handler of the client message lists returns the old
list extended at the end, never modifying or reordering the messages
already present. -/
theorem append_only_message_list (now : Nat)
    (u agentName content prevAgent target : String) (wsOpen : Bool)
    (rest : RestOutcome) (frame : InboundFrame) (o : HandoffOutcome)
    (prev : List Message) (lkNow : Nat) (lkUser text aid pid : String)
    (conn room : Bool) (m : LkReceivedMessage) (lkPrev : List LkMessage) :
    (∃ s, wsOnMessage now frame prev = prev ++ s) ∧
    (∃ s, (sendMessage now u agentName wsOpen rest content prev).messages
      = prev ++ s) ∧
    (∃ s, (handleAgentChange now prevAgent target o prev).messages
      = prev ++ s) ∧
    (∃ s, (lkHandleSendMessage lkNow lkUser conn room text lkPrev).messages
      = lkPrev ++ s) ∧
    (∃ s, lkHandleMessageReceived aid pid m lkPrev = lkPrev ++ s) := by
  refine ⟨?_, ?_, ?_, ?_, ?_⟩
  · unfold wsOnMessage
    split
    · exact ⟨_, rfl⟩
    · exact ⟨[], by simp⟩
  · unfold sendMessage
    split
    · exact ⟨[], by simp⟩
    · split
      · exact ⟨[], by simp⟩
      · cases rest
        · exact ⟨_, rfl⟩
        · exact ⟨_, rfl⟩
  · unfold handleAgentChange
    cases o with
    | ok msg toAgent =>
      exact ⟨[switchNotice now target,
        ⟨toString now, msg, toAgent, now, none, false, false⟩], by simp⟩
    | failure => exact ⟨_, rfl⟩
  · unfold lkHandleSendMessage
    split
    · exact ⟨[], by simp⟩
    · exact ⟨_, rfl⟩
  · unfold lkHandleMessageReceived
    split
    · exact ⟨[], by simp⟩
    · exact ⟨_, rfl⟩

/-- C9: when the typed content is empty or all whitespace, the send
handlers are a no-op: no frame is sent, no fetch is made and the message
list is unchanged, in both the WebSocket chat page and the LiveKit
clients. -/
theorem blank_send_noop (now : Nat) (u agentName content : String)
    (wsOpen : Bool) (rest : RestOutcome) (prev : List Message)
    (lkNow : Nat) (lkUser : String) (conn room : Bool)
    (lkPrev : List LkMessage)
    (h : ∀ c ∈ content.data, isJsWhitespace c) :
    sendMessage now u agentName wsOpen rest content prev = ⟨[], 0, prev⟩ ∧
    lkHandleSendMessage lkNow lkUser conn room content lkPrev = ⟨lkPrev, []⟩ := by
  have ht : jsTrim content = "" := (jsTrim_eq_empty_iff content).mpr h
  constructor
  · unfold sendMessage
    rw [if_pos ht]
  · unfold lkHandleSendMessage
    simp [ht]

/-- Witness for C9 at a concrete whitespace-only input. -/
theorem blank_send_noop_witness :
    (∀ c ∈ ("  " : String).data, isJsWhitespace c) ∧
    sendMessage 0 "alice" "support-agent" true RestOutcome.failure "  " []
      = ⟨[], 0, []⟩ ∧
    lkHandleSendMessage 0 "alice" true true "  " [] = ⟨[], []⟩ := by
  have h : ∀ c ∈ ("  " : String).data, isJsWhitespace c := by decide
  have hm := blank_send_noop 0 "alice" "support-agent" "  " true
    RestOutcome.failure [] 0 "alice" true true [] h
  exact ⟨h, hm.1, hm.2⟩

/-- C10: an inbound frame whose type is neither message nor system (or, in
the LiveKit clients, not chat) leaves the message list unchanged. -/
theorem unknown_frame_ignored (now : Nat) (frame : InboundFrame)
    (prev : List Message) (aid pid : String) (m : LkReceivedMessage)
    (lkPrev : List LkMessage) (h1 : frame.type ≠ "message")
    (h2 : frame.type ≠ "system") (h3 : m.type ≠ "chat") :
    wsOnMessage now frame prev = prev ∧
    lkHandleMessageReceived aid pid m lkPrev = lkPrev := by
  constructor
  · unfold wsOnMessage
    simp [h1, h2]
  · unfold lkHandleMessageReceived
    simp [h3]

/-- Witness for C10 at concrete unknown frame types. -/
theorem unknown_frame_ignored_witness :
    (("typing" : String) ≠ "message") ∧ (("typing" : String) ≠ "system") ∧
    (("presence" : String) ≠ "chat") ∧
    wsOnMessage 0 ⟨"typing", "x", "y", none, none⟩ [] = [] ∧
    lkHandleMessageReceived "agent" "bob" ⟨"presence", "x", 0⟩ [] = [] := by
  have h := unknown_frame_ignored 0 ⟨"typing", "x", "y", none, none⟩ []
    "agent" "bob" ⟨"presence", "x", 0⟩ [] (by decide) (by decide) (by decide)
  exact ⟨by decide, by decide, by decide, h.1, h.2⟩
